import Mathlib

/-!
Verification development for the picoCTF problem-deployment pipeline
(`picoCTF-shell/hacksport/deploy.py`).

The Python source is shallowly embedded: pure helpers become Lean functions,
stateful code threads an explicit `GenState`, fallible code returns
`Except PyErr`.  Machine words are `Nat` with explicit `% 2 ^ 32` where the
underlying computation (MD5) works modulo 2^32.  External effects the claims
depend on (the OS password database, the file tree of the staging directory,
the jinja2 rendering engine, the dynamically loaded challenge module) are
embedded as explicit data / oracle parameters; each such modelling decision is
documented at the definition it concerns.
-/

namespace PicoCTF

/-! ## MD5 (`hashlib.md5(...).hexdigest()`)

`generate_seed` calls `md5(...).hexdigest()` from Python's `hashlib`.  The
algorithm is embedded directly (RFC 1321): 32-bit words are `Nat` reduced
modulo `2 ^ 32`, bitwise operations are defined bit-by-bit over the 32 bit
positions. -/

/-- Bit `i` of the natural number `x` (0 or 1). -/
def bit32 (x i : Nat) : Nat := x / 2 ^ i % 2

/-- Combine two 32-bit words bitwise with the boolean-arithmetic function `f`. -/
def bop32 (f : Nat → Nat → Nat) (x y : Nat) : Nat :=
  (List.range 32).foldl (fun acc i => acc + f (bit32 x i) (bit32 y i) * 2 ^ i) 0

/-- 32-bit bitwise AND. -/
def and32 (x y : Nat) : Nat := bop32 (fun a b => a * b) x y

/-- 32-bit bitwise OR. -/
def or32 (x y : Nat) : Nat := bop32 (fun a b => a + b - a * b) x y

/-- 32-bit bitwise XOR. -/
def xor32 (x y : Nat) : Nat := bop32 (fun a b => (a + b) % 2) x y

/-- 32-bit bitwise NOT (one's complement within 32 bits). -/
def not32 (x : Nat) : Nat := 2 ^ 32 - 1 - x % 2 ^ 32

/-- Rotate the 32-bit word `x` left by `s` positions. -/
def rotl32 (x s : Nat) : Nat := x % 2 ^ (32 - s) * 2 ^ s + x / 2 ^ (32 - s)

/-- MD5 round constants `K[i] = floor(2^32 * abs(sin(i+1)))` (RFC 1321). -/
def md5K : List Nat :=
  [3614090360, 3905402710, 606105819, 3250441966, 4118548399, 1200080426,
   2821735955, 4249261313, 1770035416, 2336552879, 4294925233, 2304563134,
   1804603682, 4254626195, 2792965006, 1236535329, 4129170786, 3225465664,
   643717713, 3921069994, 3593408605, 38016083, 3634488961, 3889429448,
   568446438, 3275163606, 4107603335, 1163531501, 2850285829, 4243563512,
   1735328473, 2368359562, 4294588738, 2272392833, 1839030562, 4259657740,
   2763975236, 1272893353, 4139469664, 3200236656, 681279174, 3936430074,
   3572445317, 76029189, 3654602809, 3873151461, 530742520, 3299628645,
   4096336452, 1126891415, 2878612391, 4237533241, 1700485571, 2399980690,
   4293915773, 2240044497, 1873313359, 4264355552, 2734768916, 1309151649,
   4149444226, 3174756917, 718787259, 3951481745]

/-- MD5 per-round left-rotation amounts (RFC 1321). -/
def md5S : List Nat :=
  [7, 12, 17, 22, 7, 12, 17, 22, 7, 12, 17, 22, 7, 12, 17, 22,
   5, 9, 14, 20, 5, 9, 14, 20, 5, 9, 14, 20, 5, 9, 14, 20,
   4, 11, 16, 23, 4, 11, 16, 23, 4, 11, 16, 23, 4, 11, 16, 23,
   6, 10, 15, 21, 6, 10, 15, 21, 6, 10, 15, 21, 6, 10, 15, 21]

/-- MD5 round function for round `i` on words `b`, `c`, `d`. -/
def md5F (i b c d : Nat) : Nat :=
  if i < 16 then or32 (and32 b c) (and32 (not32 b) d)
  else if i < 32 then or32 (and32 d b) (and32 (not32 d) c)
  else if i < 48 then xor32 b (xor32 c d)
  else xor32 c (or32 b (not32 d))

/-- MD5 message-word index for round `i`. -/
def md5G (i : Nat) : Nat :=
  if i < 16 then i
  else if i < 32 then (5 * i + 1) % 16
  else if i < 48 then (3 * i + 5) % 16
  else (7 * i) % 16

/-- One MD5 round: transforms the state `(a, b, c, d)` using message words `M`. -/
def md5Step (M : Nat → Nat) (st : Nat × Nat × Nat × Nat) (i : Nat) :
    Nat × Nat × Nat × Nat :=
  match st with
  | (a, b, c, d) =>
    let f := (md5F i b c d + a + md5K.getD i 0 + M (md5G i)) % 2 ^ 32
    (d, (b + rotl32 f (md5S.getD i 0)) % 2 ^ 32, b, c)

/-- Process one 64-byte block, adding the 64-round result into the state. -/
def md5Block (st : Nat × Nat × Nat × Nat) (block : List Nat) :
    Nat × Nat × Nat × Nat :=
  let M : Nat → Nat := fun j =>
    block.getD (4 * j) 0 + 256 * block.getD (4 * j + 1) 0 +
      65536 * block.getD (4 * j + 2) 0 + 16777216 * block.getD (4 * j + 3) 0
  match st, (List.range 64).foldl (md5Step M) st with
  | (a0, b0, c0, d0), (a, b, c, d) =>
    ((a0 + a) % 2 ^ 32, (b0 + b) % 2 ^ 32, (c0 + c) % 2 ^ 32, (d0 + d) % 2 ^ 32)

/-- MD5 padding: append `0x80`, zero bytes up to 56 mod 64, then the 64-bit
little-endian bit length. -/
def md5Pad (msg : List Nat) : List Nat :=
  let bitLen := msg.length * 8 % 2 ^ 64
  let padZeros := (119 - msg.length % 64) % 64
  msg ++ [128] ++ List.replicate padZeros 0 ++
    ((List.range 8).map fun i => bitLen / 2 ^ (8 * i) % 256)

/-- MD5 initial state `(A, B, C, D)` (RFC 1321). -/
def md5Init : Nat × Nat × Nat × Nat :=
  (1732584193, 4023233417, 2562383102, 271733878)

/-- Run the block function over every 64-byte chunk of the padded message. -/
def md5Process (padded : List Nat) : Nat × Nat × Nat × Nat :=
  (List.range (padded.length / 64)).foldl
    (fun st i => md5Block st ((padded.drop (64 * i)).take 64)) md5Init

/-- The four bytes of a 32-bit word, little-endian. -/
def wordLEBytes (w : Nat) : List Nat :=
  [w % 256, w / 256 % 256, w / 65536 % 256, w / 16777216 % 256]

/-- Lowercase hexadecimal digit for `n < 16`. -/
def hexDigit (n : Nat) : Char :=
  if n < 10 then Char.ofNat (48 + n) else Char.ofNat (87 + n)

/-- Two lowercase hex characters for the byte `b`. -/
def hexByte (b : Nat) : List Char := [hexDigit (b / 16), hexDigit (b % 16)]

/-- The 16 digest bytes of the MD5 of `msg` (a list of byte values). -/
def md5DigestBytes (msg : List Nat) : List Nat :=
  match md5Process (md5Pad msg) with
  | (a, b, c, d) => wordLEBytes a ++ wordLEBytes b ++ wordLEBytes c ++ wordLEBytes d

/-- `hashlib.md5(msg).hexdigest()`: the 32-character lowercase hex digest. -/
def md5Hexdigest (msg : List Nat) : String :=
  String.mk ((md5DigestBytes msg).flatMap hexByte)

/-- The UTF-8 bytes of a string, as natural numbers (Python's `str.encode("utf-8")`). -/
def utf8Bytes (s : String) : List Nat := s.toUTF8.toList.map (fun b => b.toNat)

/-- Embeds deploy.py line 22: the fixed deployment secret. -/
def SECRET : String := "hacksports2015"

/-- Embeds `generate_seed` (deploy.py lines 127-132): the MD5 hex digest of the
concatenation (`"".join`) of the string arguments, UTF-8 encoded. -/
def generate_seed (args : List String) : String :=
  md5Hexdigest (utf8Bytes (String.join args))

/-! ## Data model

Python values stored in the `problem.json` mapping and injected by
`update_problem_class`; the password database entries returned by `pwd.getpwnam`;
the staging-tree files; the `hacksport.problem` file classes. -/

/-- Python values that occur in the problem-object mapping: the JSON fields and
the objects `update_problem_class` injects (a `Random` instance, strings, the
`url_for` stub function). -/
inductive PyVal where
  | str (s : String)
  | num (n : Int)
  | randomObj (seed : String)
  | func (tag : String)
deriving DecidableEq

/-- A Python dict with string keys, as an insertion-ordered association list. -/
abbrev PyDict := List (String × PyVal)

/-- Python `d[k] = v`: replace the value in place if the key exists, else append. -/
def dictSet (d : PyDict) (k : String) (v : PyVal) : PyDict :=
  if d.any (fun p => p.1 = k) then
    d.map (fun p => if p.1 = k then (k, v) else p)
  else
    d ++ [(k, v)]

/-- Python `d.update(kvs)`: `dictSet` for each pair in order. -/
def dictUpdate (d : PyDict) (kvs : List (String × PyVal)) : PyDict :=
  kvs.foldl (fun d' p => dictSet d' p.1 p.2) d

/-- Python `d.get(k)` / `d[k]` lookup (first matching key). -/
def dictLookup (d : PyDict) (k : String) : Option PyVal :=
  (d.find? (fun p => p.1 = k)).map (fun p => p.2)

/-- An entry of the OS password database (the fields of `pwd.struct_passwd`
that deploy.py reads: `pw_name` implicitly via lookup, `pw_uid`, `pw_gid`,
`pw_dir`). -/
structure PwEntry where
  pw_name : String
  pw_uid : Nat
  pw_gid : Nat
  pw_dir : String
deriving DecidableEq

/-- `pwd.getpwnam`: look a username up in the password database.  Python raises
`KeyError` when the name is absent; the embedding returns `none` and each call
site turns that into the error the source propagates. -/
def getpwnam (db : List PwEntry) (name : String) : Option PwEntry :=
  db.find? (fun e => e.pw_name = name)

/-- Modelled from the spec: `create_user` lives in `hacksport/operations.py`,
which is not among the provided sources.  Per §4.1/§6 it creates a new
low-privilege OS account and returns its freshly created home directory.  The
new entry receives a fresh uid/gid and a home directory derived from the
username. -/
def create_user (db : List PwEntry) (username : String) : String × List PwEntry :=
  let home := "/home/" ++ username
  let uid := 1000 + db.length
  (home, db ++ [⟨username, uid, uid, home⟩])

/-- Modelled from the spec: `sanitize_name` lives in `hacksport/utils.py`,
which is not among the provided sources.  The spec's end-to-end scenario (§8)
shows `"shell-shock"` sanitized to `"shell_shock"` inside usernames and
service-file names: each character that is not an ASCII letter or digit is
replaced by an underscore. -/
def sanitize_name (s : String) : String :=
  String.mk (s.data.map (fun c => if c.isAlphanum then c else '_'))

/-- A file of the staging tree: its base name (what `os.walk` reports and the
`problem.json` test inspects) and its contents. -/
structure FsFile where
  name : String
  content : String
deriving DecidableEq

/-- The `hacksport.problem` file classes referenced by `deploy_files`' two
`isinstance` tests: `File` is the base (Public) class, `ProtectedFile` and
`ExecutableFile` the two subclasses singled out for the root:<user-group>
ownership policy. -/
inductive SensClass where
  | publicFile
  | protectedFile
  | executableFile
deriving DecidableEq

/-- A `hacksport.problem.File` value as `deploy_files` consumes it: a path
(relative to the staging problem-files directory), permission bits, and which
of the three classes it was constructed from. -/
structure FileRec where
  path : String
  permissions : Nat
  cls : SensClass
deriving DecidableEq

/-- The dictionary returned by a challenge's `service()` method: the systemd
`Type` and `ExecStart` values `create_service_file` reads. -/
structure ServiceDesc where
  serviceType : String
  execStart : String
deriving DecidableEq

/-- Result of one jinja2 rendering attempt (`Template.render` /
`Environment.get_template(...).render`): success with the rendered text,
a `UnicodeDecodeError` from opening the file as text, or a template error
(any other exception — deploy.py catches only `UnicodeDecodeError`). -/
inductive RenderResult where
  | ok (s : String)
  | unicodeDecodeError
  | templateError
deriving DecidableEq

deriving instance DecidableEq for Except

/-- Python exceptions the embedded code can raise. -/
inductive PyErr where
  | keyError
  | typeError
  | attributeError
  | templateError
  | unboundLocalError
  | hookError (hook : String)
deriving DecidableEq

/-- `Except.isOk` as a Boolean, for stating "the run returned normally". -/
def exceptOk {ε α : Type} : Except ε α → Bool
  | .ok _ => true
  | .error _ => false

/-- The dynamically loaded challenge module (`load_source("challenge", ...)`,
deploy.py line 246) together with the behavior of its author-supplied hooks.
`hacksport/problem.py` is not among the provided sources, so the class
hierarchy is modelled from the spec (§4.4, §6): lifecycle hooks `initialize`,
`generate_flag`, `setup`, capability flags for `Compiled`/`Remote` with their
`compiler_setup`/`remote_setup` hooks and extra file lists, attributes
`description` and `files`, and an optional `service()` method.  Each hook's
success is a Boolean (a `false` hook raises); `generate_flag` is a pure
function of the `Random(seed)` source it is handed, modelled as a function of
the seed; `render` is the jinja2 oracle used for this challenge's templates. -/
structure Challenge where
  description : String
  initialize_ok : Bool
  generate_flag : String → String
  generate_flag_ok : Bool
  render : String → RenderResult
  is_compiled : Bool
  compiler_setup_ok : Bool
  is_remote : Bool
  remote_setup_ok : Bool
  setup_ok : Bool
  files : List FileRec
  compiled_files : List FileRec
  remote_files : List FileRec
  service : Option ServiceDesc

/-- The process-and-host state deploy.py mutates: the current working
directory, the OS password database, the staging tree's files, and the log of
service files written by `create_service_file`. -/
structure GenState where
  cwd : String
  pwdb : List PwEntry
  stagingFiles : List FsFile
  serviceFiles : List (String × String)
deriving DecidableEq

/-- The instantiated problem object as `generate_instance` returns it: the
attributes later code reads (`name`, templated `description`, `flag`, `user`,
`directory`). -/
structure ProblemInst where
  name : String
  description : String
  flag : String
  user : String
  directory : String
deriving DecidableEq

/-! ## Operations translated from deploy.py -/

/-- Embeds deploy.py line 19. -/
def PROBLEM_FILES_DIR : String := "problem_files"

/-- `os.path.basename`: the part of the path after its last slash (the whole
path when it contains no slash). -/
def basename (p : String) : String :=
  String.mk (p.data.foldl (fun acc c => if c = '/' then [] else acc ++ [c]) [])

/-- Embeds `update_problem_class` (deploy.py lines 43-70).  In the source,
`attributes = problem_object` aliases the input dict and
`attributes.update({...})` therefore mutates the caller's problem object in
place; the embedding returns the mutated dict and every caller threads it as
the new value of the shared problem object.  The `challenge_meta` metaclass
then injects exactly these attributes into the class namespace (the
class-attribute view is read back inside `generate_instance`). -/
def update_problem_class (problem_object : PyDict) (seed user instance_directory : String) :
    PyDict :=
  dictUpdate problem_object
    [("random", PyVal.randomObj seed), ("user", PyVal.str user),
     ("directory", PyVal.str instance_directory), ("url_for", PyVal.func "url_for_stub")]

/-- Source fact (deploy.py line 263): the body of the nested function `url_for`
contains the augmented assignment `web_accessible_files += [source]`, so the
name `web_accessible_files` is bound in `url_for`'s own scope. -/
def urlForAssignsAccumulator : Bool := true

/-- Source fact (deploy.py lines 262-264): the body of the nested function
`url_for` contains no `nonlocal web_accessible_files` declaration. -/
def urlForDeclaresNonlocal : Bool := false

/-- Embeds the real `url_for` bound before templating (deploy.py lines
261-267).  Python scoping: a name assigned anywhere in a function body is
local to that function unless declared `nonlocal`/`global`; the read that
`+=` performs on the yet-unassigned local therefore raises
`UnboundLocalError`.  The else-branch holds the effect the surrounding code
intends (append the source to the accumulator, return the prefixed URL); it
is reachable only if the source were changed to declare the name nonlocal. -/
def url_for (web_accessible_files : List String) (source : String) :
    Except PyErr (List String × String) :=
  if urlForAssignsAccumulator && !urlForDeclaresNonlocal then
    .error .unboundLocalError
  else
    .ok (web_accessible_files ++ [source], "http://" ++ source)

/-- The systemd unit text `create_service_file` builds (deploy.py lines
84-96), with the problem name, `Type` and `ExecStart` formatted in. -/
def service_file_content (name serviceType execStart : String) : String :=
  "[Unit]\nDescription=" ++ name ++ " instance\n\n[Service]\nType=" ++ serviceType ++
    "\nExecStart=" ++ execStart ++ "\n\n[Install]\nWantedBy=multi-user.target"

/-- Embeds `create_service_file` (deploy.py lines 72-102).  `problem.service()`
is a method of the challenge object; `hacksport/problem.py` is not among the
provided sources, so per the spec (§3, §6) the service descriptor is modelled
as optional — calling the method on a challenge that does not declare one
raises `AttributeError`.  The file write is modelled by returning the
`(path, content)` pair; `generate_instance` appends it to the state's log of
written service files. -/
def create_service_file (problem_name : String) (service : Option ServiceDesc)
    (instance_number : Nat) (path : String) : Except PyErr (String × String) :=
  match service with
  | none => .error .attributeError
  | some info =>
    let converted_name := sanitize_name problem_name
    let content := service_file_content problem_name info.serviceType info.execStart
    let service_file_path :=
      path ++ "/" ++ converted_name ++ "_" ++ toString instance_number ++ ".service"
    .ok (service_file_path, content)

/-- Embeds `create_instance_user` (deploy.py lines 104-125): build the
username from the sanitized problem name and the instance number; if
`getpwnam` finds it, return the existing home directory; otherwise create the
account with `create_user`.  Returns the `(username, home_directory)` pair and
the (possibly extended) password database. -/
def create_instance_user (db : List PwEntry) (problem_name : String)
    (instance_number : Nat) : (String × String) × List PwEntry :=
  let converted_name := sanitize_name problem_name
  let username := converted_name ++ "_" ++ toString instance_number
  match getpwnam db username with
  | some user => ((username, user.pw_dir), db)
  | none =>
    let r := create_user db username
    ((username, r.1), r.2)

/-- Embeds `template_staging_directory` (deploy.py lines 187-206): walk every
file of the staging tree; skip any file whose name is `problem.json`; template
each other file in place (`template_file(fullpath, fullpath, ...)`) through
the jinja2 oracle `render`; a `UnicodeDecodeError` is swallowed and leaves the
file unchanged; any other rendering error propagates immediately, leaving the
remaining files untouched (in-place mutation up to the point of failure).
Returns the resulting tree and the propagated error, if any. -/
def template_staging_directory (render : String → RenderResult) :
    List FsFile → List FsFile × Option PyErr
  | [] => ([], none)
  | f :: rest =>
    if f.name = "problem.json" then
      let r := template_staging_directory render rest
      (f :: r.1, r.2)
    else
      match render f.content with
      | .ok out =>
        let r := template_staging_directory render rest
        ({ f with content := out } :: r.1, r.2)
      | .unicodeDecodeError =>
        let r := template_staging_directory render rest
        (f :: r.1, r.2)
      | .templateError => (f :: rest, some .templateError)

/-- One deployed file as `deploy_files` leaves it on the host: where it was
copied from and to (`shutil.copy2`), and the `os.chown`/`os.chmod` values
applied. -/
structure DeployedFile where
  srcPath : String
  path : String
  ownerUid : Nat
  groupGid : Nat
  mode : Nat
deriving DecidableEq

/-- Embeds `deploy_files` (deploy.py lines 208-227): look up the problem user
and root in the password database (`getpwnam` raises `KeyError` when absent);
for each file copy it from the staging directory to the instance directory
under its base name, `chown` it to root:<user-group> when it is a
`ProtectedFile` or an `ExecutableFile` and to root:root otherwise, and `chmod`
it to its declared permission bits. -/
def deploy_files (db : List PwEntry) (staging_directory instance_directory : String)
    (file_list : List FileRec) (username : String) : Except PyErr (List DeployedFile) :=
  match getpwnam db username, getpwnam db "root" with
  | some user, some root =>
    .ok (file_list.map (fun f =>
      { srcPath := staging_directory ++ "/" ++ f.path
        path := instance_directory ++ "/" ++ basename f.path
        ownerUid := root.pw_uid
        groupGid :=
          if f.cls = SensClass.protectedFile ∨ f.cls = SensClass.executableFile then
            user.pw_gid
          else
            root.pw_gid
        mode := f.permissions }))
  | _, _ => .error .keyError

/-- Embeds `generate_instance` (deploy.py lines 229-294), threading the
process/host state and the shared problem object explicitly.  External pieces
are parameters: `problem_files` is the tree `shutil.copytree` copies from the
problem directory into `<staging>/problem_files`; `staging_directory` is the
fresh path `generate_staging_directory()` allocates (a randomized, previously
nonexistent directory — its name plays no role in the claims); `ch` is the
module `load_source` loads from the copied `challenge.py`, with its hook
behavior.  Step for step: provision the instance user, derive the seed, copy
the sources, load the challenge, rebuild the class via `update_problem_class`
(which mutates the shared problem object in place — the returned dict is
threaded onward), save `cwd` and `chdir` into the copy path, run
`initialize`, set the flag from `generate_flag(Random(seed))`, bind the real
`url_for`, template the staging tree, run the `Compiled`/`Remote` hooks and
`setup`, `chdir` back, collect the file list, write the service file, and
template the description.  A raising step aborts with the state as it stands
at that point (the source has no try/finally around the `chdir` pair).
`problem.name` and `problem.description` resolve through the injected class
attributes: a `name`/`description` key of the problem object overrides the
class's own attribute.  Exceptions raised by `template_string` on the
description (the source catches nothing there) are reported as
`templateError`. -/
def generate_instance (st : GenState) (problem_object : PyDict) (ch : Challenge)
    (problem_files : List FsFile) (staging_directory : String) (instance_number : Nat) :
    GenState × PyDict × Except PyErr (ProblemInst × String × String × List FileRec) :=
  match dictLookup problem_object "name" with
  | none => (st, problem_object, .error .keyError)
  | some (PyVal.str pname) =>
    let u := create_instance_user st.pwdb pname instance_number
    let username := u.1.1
    let home_directory := u.1.2
    let st1 : GenState := { st with pwdb := u.2 }
    let seed := generate_seed [pname, SECRET, toString instance_number]
    let copypath := staging_directory ++ "/" ++ PROBLEM_FILES_DIR
    let st2 : GenState := { st1 with stagingFiles := problem_files }
    let po := update_problem_class problem_object seed username home_directory
    let cwd := st2.cwd
    let st3 : GenState := { st2 with cwd := copypath }
    if ch.initialize_ok = false then (st3, po, .error (.hookError "initialize"))
    else if ch.generate_flag_ok = false then (st3, po, .error (.hookError "generate_flag"))
    else
      let flag := ch.generate_flag seed
      let tr := template_staging_directory ch.render st3.stagingFiles
      let st4 : GenState := { st3 with stagingFiles := tr.1 }
      match tr.2 with
      | some e => (st4, po, .error e)
      | none =>
        if ch.is_compiled && !ch.compiler_setup_ok then
          (st4, po, .error (.hookError "compiler_setup"))
        else if ch.is_remote && !ch.remote_setup_ok then
          (st4, po, .error (.hookError "remote_setup"))
        else if ch.setup_ok = false then (st4, po, .error (.hookError "setup"))
        else
          let st5 : GenState := { st4 with cwd := cwd }
          let all_files := ch.files ++
            (if ch.is_compiled then ch.compiled_files else []) ++
            (if ch.is_remote then ch.remote_files else [])
          match create_service_file pname ch.service instance_number staging_directory with
          | .error e => (st5, po, .error e)
          | .ok svc =>
            let st6 : GenState := { st5 with serviceFiles := st5.serviceFiles ++ [svc] }
            let description0 :=
              match dictLookup po "description" with
              | some (PyVal.str s) => s
              | _ => ch.description
            match ch.render description0 with
            | RenderResult.ok desc =>
              (st6, po, .ok (⟨pname, desc, flag, username, home_directory⟩,
                staging_directory, home_directory, all_files))
            | _ => (st6, po, .error .templateError)
  | some _ => (st, problem_object, .error .typeError)

/-- One collected tuple of the generation loop of `deploy_problem`
(deploy.py line 322): `(problem, staging_directory, home_directory, files)`. -/
structure GenTuple where
  problem : ProblemInst
  staging : String
  home : String
  files : List FileRec
deriving DecidableEq

/-- The generation loop of `deploy_problem` (deploy.py lines 317-322): run
`generate_instance` for instance numbers `0 .. n-1` in order, threading the
state and the shared problem object, collecting the tuples; the first raised
exception aborts the loop. -/
def gen_phase (problem_object : PyDict) (ch : Nat → Challenge) (problem_files : List FsFile)
    (stagingOf : Nat → String) (st : GenState) :
    Nat → GenState × PyDict × Except PyErr (List GenTuple)
  | 0 => (st, problem_object, .ok [])
  | n + 1 =>
    match gen_phase problem_object ch problem_files stagingOf st n with
    | (st', po', Except.ok ts) =>
      match generate_instance st' po' (ch n) problem_files (stagingOf n) n with
      | (st'', po'', Except.ok t) =>
        (st'', po'', .ok (ts ++ [⟨t.1, t.2.1, t.2.2.1, t.2.2.2⟩]))
      | (st'', po'', Except.error e) => (st'', po'', .error e)
    | r => r

/-- The deployment loop of `deploy_problem` (deploy.py lines 326-328): for
each collected tuple, invoke `deploy_files` on
`<staging>/problem_files → home` with the instance's user; an exception
aborts the remaining deployments, leaving earlier ones in place. -/
def deploy_phase (db : List PwEntry) : List GenTuple → Except PyErr Unit × List DeployedFile
  | [] => (.ok (), [])
  | t :: rest =>
    match deploy_files db (t.staging ++ "/" ++ PROBLEM_FILES_DIR) t.home t.files
        t.problem.user with
    | .error e => (.error e, [])
    | .ok dfs =>
      let r := deploy_phase db rest
      (r.1, dfs ++ r.2)

/-- Embeds `deploy_problem` (deploy.py lines 296-328).  Reading and parsing
`problem.json` is modelled by taking the parsed mapping as the
`problem_object` parameter; it is loaded once and the same (mutated) dict is
threaded through every instance.  The two phases of the source are kept: first
every instance is generated (`gen_phase`); only if that loop finishes without
an exception does the deployment loop (`deploy_phase`) run.  The fourth
component of the result is the list of files actually deployed onto the
host. -/
def deploy_problem (problem_object : PyDict) (ch : Nat → Challenge)
    (problem_files : List FsFile) (stagingOf : Nat → String) (st : GenState)
    (instances : Nat) : GenState × PyDict × Except PyErr Unit × List DeployedFile :=
  match gen_phase problem_object ch problem_files stagingOf st instances with
  | (st', po', .error e) => (st', po', .error e, [])
  | (st', po', .ok ts) =>
    let r := deploy_phase st'.pwdb ts
    (st', po', r.1, r.2)

/-! ## Concrete fixtures used by witnesses and counterexamples -/

/-- A password database holding only root. -/
def db0 : List PwEntry := [⟨"root", 0, 0, "/root"⟩]

/-- A minimal parsed `problem.json` mapping. -/
def spec0 : PyDict := [("name", PyVal.str "shell-shock")]

/-- A small problem source tree, including the metadata file itself. -/
def files0 : List FsFile := [⟨"problem.json", "metadata-body"⟩, ⟨"flag.txt", "the-flag"⟩]

/-- A challenge whose every hook succeeds, with one public output file and a
declared service. -/
def chOk : Challenge :=
  { description := "solve me"
    initialize_ok := true
    generate_flag := fun _ => "flagval"
    generate_flag_ok := true
    render := fun s => RenderResult.ok s
    is_compiled := false
    compiler_setup_ok := true
    is_remote := false
    remote_setup_ok := true
    setup_ok := true
    files := [⟨"flag.txt", 292, SensClass.publicFile⟩]
    compiled_files := []
    remote_files := []
    service := some ⟨"simple", "/usr/bin/run"⟩ }

/-- `chOk` with an `initialize` hook that raises. -/
def chFailInit : Challenge := { chOk with initialize_ok := false }

/-- `chOk` with no declared service. -/
def chNoService : Challenge := { chOk with service := none }

/-- An initial process/host state: some working directory, only root in the
password database, nothing staged, no service files written. -/
def st0 : GenState := ⟨"/orig", db0, [], []⟩

/-! ## Dictionary lemmas -/

/-- Replacing the value at key `k'` throughout an association list does not
change a lookup of a different key `k`. -/
theorem find_map_set_ne (k k' : String) (v : PyVal) (h : ¬ k' = k) :
    ∀ d : PyDict,
      Option.map (fun p => p.2)
          (List.find? (fun p => p.1 = k) (d.map (fun p => if p.1 = k' then (k', v) else p)))
        = Option.map (fun p => p.2) (List.find? (fun p => p.1 = k) d)
  | [] => rfl
  | p :: rest => by
    by_cases hp : p.1 = k'
    · have hpk : ¬ p.1 = k := by rw [hp]; exact h
      simp only [List.map_cons, if_pos hp]
      rw [List.find?_cons_of_neg _ (by simpa using h),
        List.find?_cons_of_neg _ (by simpa using hpk)]
      exact find_map_set_ne k k' v h rest
    · simp only [List.map_cons, if_neg hp]
      by_cases hk : p.1 = k
      · rw [List.find?_cons_of_pos _ (by simpa using hk),
          List.find?_cons_of_pos _ (by simpa using hk)]
      · rw [List.find?_cons_of_neg _ (by simpa using hk),
          List.find?_cons_of_neg _ (by simpa using hk)]
        exact find_map_set_ne k k' v h rest

/-- `dictSet` on a different key leaves a lookup unchanged. -/
theorem dictLookup_dictSet_ne (d : PyDict) (k k' : String) (v : PyVal) (h : ¬ k' = k) :
    dictLookup (dictSet d k' v) k = dictLookup d k := by
  unfold dictSet dictLookup
  split
  · exact find_map_set_ne k k' v h d
  · rw [List.find?_append]
    have hnone : List.find? (fun p => p.1 = k) [(k', v)] = none := by
      simp [List.find?, h]
    rw [hnone]
    simp

/-- `dictUpdate` leaves lookups of keys outside the update unchanged. -/
theorem dictLookup_dictUpdate_notMem (kvs : List (String × PyVal)) (d : PyDict) (k : String)
    (h : ∀ p ∈ kvs, ¬ p.1 = k) :
    dictLookup (dictUpdate d kvs) k = dictLookup d k := by
  induction kvs generalizing d with
  | nil => rfl
  | cons p rest ih =>
    have hrest : dictLookup (dictUpdate (dictSet d p.1 p.2) rest) k
        = dictLookup (dictSet d p.1 p.2) k :=
      ih _ (fun q hq => h q (List.mem_cons_of_mem _ hq))
    have hstep := dictLookup_dictSet_ne d k p.1 p.2 (h p (List.mem_cons_self _ _))
    calc dictLookup (dictUpdate d (p :: rest)) k
        = dictLookup (dictUpdate (dictSet d p.1 p.2) rest) k := rfl
      _ = dictLookup (dictSet d p.1 p.2) k := hrest
      _ = dictLookup d k := hstep

/-! ## Branch analyses of `generate_instance` -/

/-- Every run of `generate_instance` either aborts with an error or leaves the
working directory at its initial value. -/
theorem gi_cwd_cases (st : GenState) (po : PyDict) (ch : Challenge) (pf : List FsFile)
    (sd : String) (n : Nat) :
    exceptOk (generate_instance st po ch pf sd n).2.2 = false ∨
    (generate_instance st po ch pf sd n).1.cwd = st.cwd := by
  unfold generate_instance
  split
  · exact .inl rfl
  · dsimp only
    generalize template_staging_directory ch.render pf = tr
    repeat' split
    all_goals first | exact .inl rfl | exact .inr rfl
  · exact .inl rfl

/-- A run of `generate_instance` that returns normally passed the
`create_service_file` call, which requires a declared service. -/
theorem gi_ok_service (st : GenState) (po : PyDict) (ch : Challenge) (pf : List FsFile)
    (sd : String) (n : Nat) :
    exceptOk (generate_instance st po ch pf sd n).2.2 = false ∨
    (ch.service).isSome = true := by
  unfold generate_instance
  split
  · exact .inl rfl
  · dsimp only
    generalize template_staging_directory ch.render pf = tr
    repeat' split
    all_goals try exact .inl rfl
    all_goals cases hs : ch.service with
      | some info => exact .inr rfl
      | none => simp_all [create_service_file]
  · exact .inl rfl

/-- A run of `generate_instance` on a challenge with no declared service
aborts with an error and writes no service file. -/
theorem gi_none_service (st : GenState) (po : PyDict) (ch : Challenge) (pf : List FsFile)
    (sd : String) (n : Nat) (hs : ch.service = none) :
    exceptOk (generate_instance st po ch pf sd n).2.2 = false ∧
    (generate_instance st po ch pf sd n).1.serviceFiles = st.serviceFiles := by
  unfold generate_instance
  split
  · exact ⟨rfl, rfl⟩
  · dsimp only
    generalize template_staging_directory ch.render pf = tr
    repeat' split
    all_goals first
      | exact ⟨rfl, rfl⟩
      | simp_all [create_service_file]
  · exact ⟨rfl, rfl⟩

/-! ## Claim C1 — working-directory restoration -/

/-- C1 counterexample: a run of the lifecycle runner that aborts at the
`initialize` step (after the `chdir` into the staging copy path) ends with the
process working directory different from its value before the run — the
source restores the directory only on the success path, with no try/finally. -/
theorem c1_counterexample :
    exceptOk (generate_instance st0 spec0 chFailInit files0 "/tmp/staging/7" 0).2.2 = false ∧
    ¬ (generate_instance st0 spec0 chFailInit files0 "/tmp/staging/7" 0).1.cwd = st0.cwd := by
  decide

/-- C1 (amended): when `generate_instance` returns normally, the process
working directory after the run equals its value before the run; a run that
aborts between the directory change and the post-`setup` restore does not
restore it. -/
theorem c1_cwd_restored_on_success (st : GenState) (po : PyDict) (ch : Challenge)
    (pf : List FsFile) (sd : String) (n : Nat)
    (h : exceptOk (generate_instance st po ch pf sd n).2.2 = true) :
    (generate_instance st po ch pf sd n).1.cwd = st.cwd := by
  rcases gi_cwd_cases st po ch pf sd n with hf | hc
  · rw [h] at hf; cases hf
  · exact hc

/-- C1 witness: a concrete successful run restores the working directory. -/
theorem c1_witness :
    exceptOk (generate_instance st0 spec0 chOk files0 "/tmp/staging/7" 0).2.2 = true ∧
    (generate_instance st0 spec0 chOk files0 "/tmp/staging/7" 0).1.cwd = st0.cwd :=
  ⟨by decide, c1_cwd_restored_on_success st0 spec0 chOk files0 "/tmp/staging/7" 0 (by decide)⟩

/-! ## Claim C2 — the shared problem-specification mapping -/

/-- C2 counterexample: generating one instance changes the shared
specification mapping — `update_problem_class` aliases and mutates the loaded
`problem.json` dict, so after `generate_instance` it holds a `url_for` key it
did not hold when loaded. -/
theorem c2_counterexample :
    ¬ dictLookup ((generate_instance st0 spec0 chOk files0 "/tmp/staging/7" 0).2.1) "url_for"
      = dictLookup spec0 "url_for" := by
  decide

/-- C2 (amended): generating an instance mutates the shared specification
mapping only at the four injected keys `random`, `user`, `directory`,
`url_for`; every other key keeps the value it had when the mapping was
loaded. -/
theorem c2_spec_keys_outside_injection_preserved (st : GenState) (po : PyDict)
    (ch : Challenge) (pf : List FsFile) (sd : String) (n : Nat) (k : String)
    (hk : ¬ k ∈ (["random", "user", "directory", "url_for"] : List String)) :
    dictLookup ((generate_instance st po ch pf sd n).2.1) k = dictLookup po k := by
  have hupd : ∀ seed user dir, dictLookup (update_problem_class po seed user dir) k
      = dictLookup po k := by
    intro seed user dir
    apply dictLookup_dictUpdate_notMem
    intro p hp
    simp only [List.mem_cons, List.not_mem_nil, or_false] at hp
    rcases hp with rfl | rfl | rfl | rfl <;> intro h <;> exact hk (by simp [← h])
  unfold generate_instance
  split
  · rfl
  · dsimp only
    generalize template_staging_directory ch.render pf = tr
    repeat' split
    all_goals first | rfl | exact hupd _ _ _
  · rfl

/-- C2 witness: the author-supplied `name` key survives a concrete instance
generation unchanged. -/
theorem c2_witness :
    ¬ "name" ∈ (["random", "user", "directory", "url_for"] : List String) ∧
    dictLookup ((generate_instance st0 spec0 chOk files0 "/tmp/staging/7" 0).2.1) "name"
      = dictLookup spec0 "name" :=
  ⟨by decide,
    c2_spec_keys_outside_injection_preserved st0 spec0 chOk files0 "/tmp/staging/7" 0 "name"
      (by decide)⟩

/-! ## Claim C5 — service-file emission -/

/-- C5 counterexample: an instance whose challenge declares no service fails
generation with an `AttributeError` at the unconditional
`create_service_file` call — the claim's "its generation does not fail on
that account" is false on the code. -/
theorem c5_counterexample :
    (generate_instance st0 spec0 chNoService files0 "/tmp/staging/7" 0).2.2
      = Except.error PyErr.attributeError := by
  decide

/-- C5 (amended): a service-unit file is written only when the challenge
declares a service (a normally-returning run implies a declared service), and
a challenge with no declared service writes no service file — but its
generation aborts with an error instead of succeeding. -/
theorem c5_service_emission (st : GenState) (po : PyDict) (ch : Challenge)
    (pf : List FsFile) (sd : String) (n : Nat) :
    (exceptOk (generate_instance st po ch pf sd n).2.2 = true → (ch.service).isSome = true) ∧
    ((ch.service) = none →
      exceptOk (generate_instance st po ch pf sd n).2.2 = false ∧
      (generate_instance st po ch pf sd n).1.serviceFiles = st.serviceFiles) := by
  constructor
  · intro hok
    rcases gi_ok_service st po ch pf sd n with hf | hs
    · rw [hok] at hf; cases hf
    · exact hs
  · exact gi_none_service st po ch pf sd n

/-- C5 witness: a concrete no-service challenge fails generation and leaves
the written-service-file log unchanged. -/
theorem c5_witness :
    exceptOk (generate_instance st0 spec0 chNoService files0 "/tmp/staging/7" 0).2.2 = false ∧
    (generate_instance st0 spec0 chNoService files0 "/tmp/staging/7" 0).1.serviceFiles
      = st0.serviceFiles :=
  (c5_service_emission st0 spec0 chNoService files0 "/tmp/staging/7" 0).2 rfl

/-! ## Claim C6 — the real `url_for` link generator -/

/-- C6: every invocation of the bound link generator raises
`UnboundLocalError` instead of appending to the accumulator and returning the
URL: `web_accessible_files += [source]` makes the accumulator name local to
`url_for`, and it is read before assignment.  This contradicts the intent the
source states for the binding ("Real implementation is placed before
templating"), so the code, not the claim's intent, is at fault. -/
theorem c6_url_for_always_raises (web_accessible_files : List String) (source : String) :
    url_for web_accessible_files source = .error PyErr.unboundLocalError := rfl

/-! ## Claim C3 — ownership/permission policy of `deploy_files` -/

/-- C3: for every deployed file record, `deploy_files` applies exactly the
policy of its sensitivity class: owner is always the `root` entry's uid; the
group is the target account's primary group for `ProtectedFile`/
`ExecutableFile` and root's group otherwise; the mode is the file's declared
permission bits. -/
theorem c3_deploy_files_policy (db : List PwEntry) (stg dir : String)
    (files : List FileRec) (username : String) (u r : PwEntry) (out : List DeployedFile)
    (hu : getpwnam db username = some u) (hr : getpwnam db "root" = some r)
    (hout : deploy_files db stg dir files username = .ok out) :
    r.pw_name = "root" ∧ out.length = files.length ∧
    ∀ i (hi : i < files.length) (ho : i < out.length),
      (out.get ⟨i, ho⟩).ownerUid = r.pw_uid ∧
      (out.get ⟨i, ho⟩).groupGid =
        (if (files.get ⟨i, hi⟩).cls = SensClass.protectedFile ∨
            (files.get ⟨i, hi⟩).cls = SensClass.executableFile
         then u.pw_gid else r.pw_gid) ∧
      (out.get ⟨i, ho⟩).mode = (files.get ⟨i, hi⟩).permissions := by
  have hname : r.pw_name = "root" := by simpa using List.find?_some hr
  unfold deploy_files at hout
  rw [hu, hr] at hout
  dsimp only at hout
  cases hout
  refine ⟨hname, by simp, ?_⟩
  intro i hi ho
  simp

/-- A password database with a root account and one instance account. -/
def dbW : List PwEntry :=
  [⟨"root", 0, 0, "/root"⟩, ⟨"shell_shock_0", 1000, 1000, "/home/shell_shock_0"⟩]

/-- The spec's §8 file set: a public `flag.txt` with mode 0444 and a
protected `vuln` with mode 02755. -/
def filesW : List FileRec :=
  [⟨"flag.txt", 292, SensClass.publicFile⟩, ⟨"vuln", 1517, SensClass.protectedFile⟩]

/-- What `deploy_files` produces on `filesW`. -/
def outW : List DeployedFile :=
  [⟨"/tmp/s/flag.txt", "/home/shell_shock_0/flag.txt", 0, 0, 292⟩,
   ⟨"/tmp/s/vuln", "/home/shell_shock_0/vuln", 0, 1000, 1517⟩]

/-- C3 witness: the concrete §8 scenario — `flag.txt` ends root:root 0444,
`vuln` ends root:shell_shock_0 02755. -/
theorem c3_witness :
    (⟨"root", 0, 0, "/root"⟩ : PwEntry).pw_name = "root" ∧ outW.length = filesW.length ∧
    ∀ i (hi : i < filesW.length) (ho : i < outW.length),
      (outW.get ⟨i, ho⟩).ownerUid = (⟨"root", 0, 0, "/root"⟩ : PwEntry).pw_uid ∧
      (outW.get ⟨i, ho⟩).groupGid =
        (if (filesW.get ⟨i, hi⟩).cls = SensClass.protectedFile ∨
            (filesW.get ⟨i, hi⟩).cls = SensClass.executableFile
         then (⟨"shell_shock_0", 1000, 1000, "/home/shell_shock_0"⟩ : PwEntry).pw_gid
         else (⟨"root", 0, 0, "/root"⟩ : PwEntry).pw_gid) ∧
      (outW.get ⟨i, ho⟩).mode = (filesW.get ⟨i, hi⟩).permissions :=
  c3_deploy_files_policy dbW "/tmp/s" "/home/shell_shock_0" filesW "shell_shock_0"
    ⟨"shell_shock_0", 1000, 1000, "/home/shell_shock_0"⟩ ⟨"root", 0, 0, "/root"⟩ outW
    (by decide) (by decide) (by decide)

/-! ## Claim C4 — fail-fast, all-or-nothing generation -/

/-- Once the generation loop has raised, running it for more instances
changes nothing: the error and the state at the failure are final. -/
theorem gen_phase_error_stable (po : PyDict) (ch : Nat → Challenge)
    (pf : List FsFile) (sg : Nat → String) (st : GenState) (m : Nat) (e : PyErr)
    (h : (gen_phase po ch pf sg st m).2.2 = .error e) :
    ∀ k, gen_phase po ch pf sg st (m + k) = gen_phase po ch pf sg st m
  | 0 => rfl
  | k + 1 => by
    have ih := gen_phase_error_stable po ch pf sg st m e h k
    have hsucc : gen_phase po ch pf sg st (m + k + 1) =
        match gen_phase po ch pf sg st (m + k) with
        | (st', po', Except.ok ts) =>
          (match generate_instance st' po' (ch (m + k)) pf (sg (m + k)) (m + k) with
           | (st'', po'', Except.ok t) =>
             (st'', po'', Except.ok (ts ++ [⟨t.1, t.2.1, t.2.2.1, t.2.2.2⟩]))
           | (st'', po'', Except.error e') => (st'', po'', Except.error e'))
        | r => r := rfl
    show gen_phase po ch pf sg st (m + k + 1) = gen_phase po ch pf sg st m
    rw [hsucc, ih]
    rcases hg : gen_phase po ch pf sg st m with ⟨st', po', r⟩
    rw [hg] at h
    dsimp only at h
    subst h
    rfl

/-- C4: if the lifecycle run of instance `i` fails (the earlier instances
having generated normally), the whole `deploy_problem` run aborts with that
error and the list of files deployed onto the host is empty — `deploy_files`
is never invoked for any instance. -/
theorem c4_no_deploy_after_generation_failure (po : PyDict) (ch : Nat → Challenge)
    (pf : List FsFile) (sg : Nat → String) (st : GenState) (n i : Nat) (e : PyErr)
    (ts : List GenTuple) (hin : i < n)
    (hts : (gen_phase po ch pf sg st i).2.2 = .ok ts)
    (hfail : (generate_instance (gen_phase po ch pf sg st i).1
        (gen_phase po ch pf sg st i).2.1 (ch i) pf (sg i) i).2.2 = .error e) :
    (deploy_problem po ch pf sg st n).2.2.1 = .error e ∧
    (deploy_problem po ch pf sg st n).2.2.2 = [] := by
  have hsucc : gen_phase po ch pf sg st (i + 1) =
      match gen_phase po ch pf sg st i with
      | (st', po', Except.ok ts) =>
        (match generate_instance st' po' (ch i) pf (sg i) i with
         | (st'', po'', Except.ok t) =>
           (st'', po'', Except.ok (ts ++ [⟨t.1, t.2.1, t.2.2.1, t.2.2.2⟩]))
         | (st'', po'', Except.error e') => (st'', po'', Except.error e'))
      | r => r := rfl
  have hstep : (gen_phase po ch pf sg st (i + 1)).2.2 = .error e := by
    rw [hsucc]
    rcases hgi : gen_phase po ch pf sg st i with ⟨st', po', r⟩
    rw [hgi] at hts hfail
    dsimp only at hts hfail
    subst hts
    dsimp only
    rcases hge : generate_instance st' po' (ch i) pf (sg i) i with ⟨st'', po'', r''⟩
    rw [hge] at hfail
    dsimp only at hfail
    subst hfail
    rfl
  have hn : gen_phase po ch pf sg st n = gen_phase po ch pf sg st (i + 1) := by
    have hstable := gen_phase_error_stable po ch pf sg st (i + 1) e hstep (n - (i + 1))
    rwa [Nat.add_sub_cancel' hin] at hstable
  have hdp : deploy_problem po ch pf sg st n =
      match gen_phase po ch pf sg st n with
      | (st', po', Except.error e') => (st', po', Except.error e', [])
      | (st', po', Except.ok ts) =>
        (st', po', (deploy_phase st'.pwdb ts).1, (deploy_phase st'.pwdb ts).2) := rfl
  rw [hdp, hn]
  rcases hgs : gen_phase po ch pf sg st (i + 1) with ⟨st', po', r⟩
  rw [hgs] at hstep
  dsimp only at hstep
  subst hstep
  exact ⟨rfl, rfl⟩

/-- C4 witness: with instance 0 of 2 failing at `initialize`, the whole run
aborts with that error and deploys nothing. -/
theorem c4_witness :
    (deploy_problem spec0 (fun _ => chFailInit) files0 (fun _ => "/tmp/staging/7")
      st0 2).2.2.1 = Except.error (PyErr.hookError "initialize") ∧
    (deploy_problem spec0 (fun _ => chFailInit) files0 (fun _ => "/tmp/staging/7")
      st0 2).2.2.2 = [] :=
  c4_no_deploy_after_generation_failure spec0 (fun _ => chFailInit) files0
    (fun _ => "/tmp/staging/7") st0 2 0 (PyErr.hookError "initialize") []
    (by decide) (by decide) (by decide)

/-! ## Claims C7 and C10 — seed derivation -/

/-- The MD5 digest always consists of 16 bytes. -/
theorem md5DigestBytes_length (msg : List Nat) : (md5DigestBytes msg).length = 16 := by
  unfold md5DigestBytes
  rcases md5Process (md5Pad msg) with ⟨a, b, c, d⟩
  simp [wordLEBytes]

/-- Hex-encoding yields two characters per byte. -/
theorem flatMap_hexByte_length (l : List Nat) : (l.flatMap hexByte).length = 2 * l.length := by
  induction l with
  | nil => rfl
  | cons b rest ih =>
    rw [List.flatMap_cons, List.length_append, ih]
    simp only [hexByte, List.length_cons, List.length_nil]
    omega

/-- The MD5 hex digest always has 32 characters. -/
theorem md5Hexdigest_length (msg : List Nat) : (md5Hexdigest msg).length = 32 := by
  show ((md5DigestBytes msg).flatMap hexByte).length = 32
  rw [flatMap_hexByte_length, md5DigestBytes_length]

/-- C7: `generate_seed` is a pure function — on a fixed (problem name,
secret, instance number) it always returns the 32-character MD5 hex digest of
their concatenation, so equal inputs give equal seeds, and the flag — computed
by applying the challenge's `generate_flag` to `Random(seed)`, a pure function
of the seed — is likewise equal. -/
theorem c7_seed_deterministic (name secret inst : String)
    (generate_flag : String → String) :
    (generate_seed [name, secret, inst]).length = 32 ∧
    generate_seed [name, secret, inst] = md5Hexdigest (utf8Bytes (name ++ secret ++ inst)) ∧
    ∀ name' secret' inst', name = name' → secret = secret' → inst = inst' →
      generate_seed [name, secret, inst] = generate_seed [name', secret', inst'] ∧
      generate_flag (generate_seed [name, secret, inst])
        = generate_flag (generate_seed [name', secret', inst']) := by
  refine ⟨md5Hexdigest_length _, rfl, ?_⟩
  rintro name' secret' inst' rfl rfl rfl
  exact ⟨rfl, rfl⟩

/-- C7 witness: the spec's §8 scenario inputs give a 32-character seed, and
equal inputs give equal seeds. -/
theorem c7_witness :
    (generate_seed ["shell-shock", SECRET, "0"]).length = 32 ∧
    generate_seed ["shell-shock", SECRET, "0"] = generate_seed ["shell-shock", SECRET, "0"] :=
  ⟨(c7_seed_deterministic "shell-shock" SECRET "0" (fun s => s)).1,
   ((c7_seed_deterministic "shell-shock" SECRET "0" (fun s => s)).2.2 "shell-shock" SECRET "0"
     rfl rfl rfl).1⟩

/-- C10: `generate_seed` depends only on the concatenation of its arguments —
argument lists with equal `"".join` values yield the same seed, so distinct
(problem name, secret, instance number) triples with coinciding concatenations
collide. -/
theorem c10_seed_depends_only_on_concatenation (args1 args2 : List String)
    (h : String.join args1 = String.join args2) :
    generate_seed args1 = generate_seed args2 := by
  unfold generate_seed
  rw [h]

/-- C10 witness: the argument lists `["ab", "c"]` and `["a", "bc"]` have equal
concatenations and receive the same seed. -/
theorem c10_witness :
    String.join ["ab", "c"] = String.join ["a", "bc"] ∧
    generate_seed ["ab", "c"] = generate_seed ["a", "bc"] :=
  ⟨by decide, c10_seed_depends_only_on_concatenation ["ab", "c"] ["a", "bc"] (by decide)⟩

/-! ## Claim C8 — idempotent identity provisioning -/

/-- A freshly appended password-database entry is found by name, provided the
name was previously absent. -/
theorem getpwnam_append_self (db : List PwEntry) (e : PwEntry)
    (h : getpwnam db e.pw_name = none) :
    getpwnam (db ++ [e]) e.pw_name = some e := by
  unfold getpwnam at h ⊢
  rw [List.find?_append, h]
  simp

/-- C8: `create_instance_user` is idempotent — a second call with the same
problem name and instance number returns the same username and home directory
and leaves the account database unchanged; and when the account already
exists, even the first call creates nothing. -/
theorem c8_provisioning_idempotent (db : List PwEntry) (name : String) (n : Nat) :
    create_instance_user (create_instance_user db name n).2 name n
      = create_instance_user db name n ∧
    ((getpwnam db (sanitize_name name ++ "_" ++ toString n)).isSome = true →
      (create_instance_user db name n).2 = db) := by
  unfold create_instance_user create_user
  dsimp only
  cases hg : getpwnam db (sanitize_name name ++ "_" ++ toString n) with
  | some u =>
    refine ⟨?_, fun _ => rfl⟩
    dsimp only
    rw [hg]
  | none =>
    refine ⟨?_, by simp⟩
    have hfound := getpwnam_append_self db
      ⟨sanitize_name name ++ "_" ++ toString n, 1000 + db.length, 1000 + db.length,
        "/home/" ++ (sanitize_name name ++ "_" ++ toString n)⟩ hg
    rw [hfound]

/-- C8 witness: double provisioning on a database lacking the account is
idempotent, and a database already holding the account gains no entry. -/
theorem c8_witness :
    create_instance_user (create_instance_user db0 "shell-shock" 0).2 "shell-shock" 0
      = create_instance_user db0 "shell-shock" 0 ∧
    (create_instance_user dbW "shell-shock" 0).2 = dbW :=
  ⟨(c8_provisioning_idempotent db0 "shell-shock" 0).1,
   (c8_provisioning_idempotent dbW "shell-shock" 0).2 (by decide)⟩

/-! ## Claim C9 — `problem.json` is never template-rendered -/

/-- C9: the staging-tree templating walk never touches a file named
`problem.json`: whatever the rendering oracle does (even one that would
rewrite placeholder-like content), every `problem.json` entry of the tree is
returned untouched, in failing walks as well as successful ones. -/
theorem c9_problem_json_never_rendered (render : String → RenderResult) :
    ∀ (files : List FsFile) (i : Nat) (fi : FsFile),
      files[i]? = some fi → fi.name = "problem.json" →
      (template_staging_directory render files).1[i]? = some fi
  | [], i, fi, h, _ => by simp at h
  | f :: rest, 0, fi, h, hname => by
    simp only [List.getElem?_cons_zero, Option.some.injEq] at h
    subst h
    unfold template_staging_directory
    rw [if_pos hname]
    simp
  | f :: rest, i + 1, fi, h, hname => by
    simp only [List.getElem?_cons_succ] at h
    have ih := c9_problem_json_never_rendered render rest i fi h hname
    unfold template_staging_directory
    by_cases hn : f.name = "problem.json"
    · rw [if_pos hn]
      simpa using ih
    · rw [if_neg hn]
      cases hr : render f.content with
      | ok out => simpa using ih
      | unicodeDecodeError => simpa using ih
      | templateError => simpa using h

/-- C9 witness: a concrete `problem.json` with placeholder-like content
survives a walk whose renderer rewrites everything it is given. -/
theorem c9_witness :
    (([⟨"problem.json", "flag is <revealed>"⟩] : List FsFile))[0]?
      = some (⟨"problem.json", "flag is <revealed>"⟩ : FsFile) ∧
    (⟨"problem.json", "flag is <revealed>"⟩ : FsFile).name = "problem.json" ∧
    (template_staging_directory (fun s => RenderResult.ok (s ++ "!"))
      [⟨"problem.json", "flag is <revealed>"⟩]).1[0]?
        = some (⟨"problem.json", "flag is <revealed>"⟩ : FsFile) :=
  ⟨rfl, rfl,
    c9_problem_json_never_rendered (fun s => RenderResult.ok (s ++ "!"))
      [⟨"problem.json", "flag is <revealed>"⟩] 0 ⟨"problem.json", "flag is <revealed>"⟩ rfl rfl⟩

end PicoCTF
